import Mathlib

set_option maxHeartbeats 1000000

/- Shallow embedding of the CodeMask backend: the chunk registry
   (src/utils/chunkStore.js), the fetch authorizer route
   (src/index.js, GET /api/fetch/:projectId/:chunkId), the browser SDK
   loader served by src/index.js (init / _loadImpl / load), and the
   marker scanner and snippet classifier (src/utils/parser.js). -/

/- ## Chunk registry (src/utils/chunkStore.js) -/

/-- A stored chunk record, as put by POST /api/mask:
`{ type, name, params, body, original }`. -/
structure Chunk where
  type : String
  name : Option String
  params : String
  body : String
  original : String
deriving DecidableEq

/-- A project record: `store.set(projectId, { key, chunks: Map(...) })`. -/
structure Project where
  key : String
  chunks : List (String × Chunk)
deriving DecidableEq

/-- The in-memory store: `const store = new Map()`, modelled as an
association list keyed by project id. -/
abbrev Store := List (String × Project)

/-- JS `Map.prototype.get`: first binding of the key, or none. -/
def mapGet {α : Type} : List (String × α) → String → Option α
  | [], _ => none
  | (k0, v) :: rest, k => if k0 = k then some v else mapGet rest k

/-- JS `Map.prototype.set`: replace the binding if the key is present,
otherwise append it. -/
def mapSet {α : Type} : List (String × α) → String → α → List (String × α)
  | [], k, v => [(k, v)]
  | (k0, v0) :: rest, k, v =>
    if k0 = k then (k, v) :: rest else (k0, v0) :: mapSet rest k v

/-- `createProject(projectId, key)`: `store.set(projectId, { key, chunks: new Map() })`.
Unconditional: an existing project with the same id is overwritten. -/
def createProject (s : Store) (projectId key : String) : Store :=
  mapSet s projectId { key := key, chunks := [] }

/-- `putChunk(projectId, chunkId, chunkMeta)`: throws if the project is
unknown, otherwise `proj.chunks.set(chunkId, chunkMeta)`. -/
def putChunk (s : Store) (projectId chunkId : String) (chunkMeta : Chunk) :
    Except String Store :=
  match mapGet s projectId with
  | none => Except.error ("Project not found")
  | some proj =>
    Except.ok (mapSet s projectId { proj with chunks := mapSet proj.chunks chunkId chunkMeta })

/-- `getProject(projectId)`: `store.get(projectId)`. -/
def getProject (s : Store) (projectId : String) : Option Project :=
  mapGet s projectId

/-- `getChunk(projectId, chunkId)`: null when the project is missing,
otherwise `proj.chunks.get(chunkId)`. -/
def getChunk (s : Store) (projectId chunkId : String) : Option Chunk :=
  match mapGet s projectId with
  | none => none
  | some proj => mapGet proj.chunks chunkId

/-- One mutating registry operation (the reads getProject/getChunk do not
change the store). -/
inductive RegOp where
  | create (projectId key : String)
  | put (projectId chunkId : String) (chunkMeta : Chunk)
deriving DecidableEq

/-- Apply one registry operation; a putChunk on an unknown project throws
in JS, leaving the store unchanged. -/
def applyOp (s : Store) : RegOp → Store
  | RegOp.create pid k => createProject s pid k
  | RegOp.put pid cid c =>
    match putChunk s pid cid c with
    | Except.ok s2 => s2
    | Except.error _ => s

/-- Apply a sequence of registry operations in order. -/
def applyOps (s : Store) (ops : List RegOp) : Store :=
  ops.foldl applyOp s

/-- An operation is fresh when it does not hit an already-mapped id:
a create whose project id is unmapped, or a put whose chunk id is not
already present under that project. -/
def opFresh (s : Store) : RegOp → Bool
  | RegOp.create pid _ => (getProject s pid).isNone
  | RegOp.put pid cid _ => (getChunk s pid cid).isNone

/-- Every operation in the sequence is fresh in the state where it runs. -/
def allFresh : Store → List RegOp → Bool
  | _, [] => true
  | s, op :: ops => opFresh s op && allFresh (applyOp s op) ops

/- ## Fetch authorizer (src/index.js, GET /api/fetch/:projectId/:chunkId) -/

/-- The four response shapes of the fetch route: 404 Project not found,
403 Invalid key, 404 Chunk not found, and the two 200 payloads. -/
inductive FetchResponse where
  | projectNotFound
  | invalidKey
  | chunkNotFound
  | okFunction (name : Option String) (code : String)
  | okRaw (code : String)
deriving DecidableEq

/-- The fetch route handler: project lookup, then key comparison, then
chunk lookup, then response shaping by `chunk.type`. -/
def fetchChunkHandler (s : Store) (projectId chunkId qkey : String) : FetchResponse :=
  match getProject s projectId with
  | none => FetchResponse.projectNotFound
  | some project =>
    if qkey ≠ project.key then FetchResponse.invalidKey
    else
      match getChunk s projectId chunkId with
      | none => FetchResponse.chunkNotFound
      | some chunk =>
        if chunk.type = "decl" ∨ chunk.type = "arrow" then
          FetchResponse.okFunction chunk.name
            ("(" ++ chunk.params ++ ") => \x7b " ++ chunk.body ++ " \x7d")
        else
          FetchResponse.okRaw chunk.original

/- ## Client SDK loader (src/index.js, served at /sdk/codemask-sdk.js) -/

/-- A compiled invocable unit: `new Function("return " + data.code)()` for
kind "function", `new Function(data.code)` otherwise. -/
inductive Compiled where
  | fnFromCode (code : String)
  | rawFn (code : String)
deriving DecidableEq

/-- A successful fetch payload `{ ok: true, kind, name, code }`. -/
structure Payload where
  kind : String
  name : Option String
  code : String
deriving DecidableEq

/-- The SDK loader body `_loadImpl(chunkId)`: cache hit returns the cached
unit with no fetch; otherwise one fetch (the returned Nat counts fetches),
a non-ok response throws, a "function" payload is compiled and cached, any
other kind is compiled but not cached. The server is the fetch oracle:
none models a non-ok response. -/
def _loadImpl (server : String → Option Payload) (cache : List (String × Compiled))
    (chunkId : String) : Except String Compiled × List (String × Compiled) × Nat :=
  match mapGet cache chunkId with
  | some fn => (Except.ok fn, cache, 0)
  | none =>
    match server chunkId with
    | none => (Except.error ("Failed to load chunk " ++ chunkId), cache, 1)
    | some data =>
      if data.kind = "function" then
        (Except.ok (Compiled.fnFromCode data.code),
          mapSet cache chunkId (Compiled.fnFromCode data.code), 1)
      else
        (Except.ok (Compiled.rawFn data.code), cache, 1)

/-- The observable steps of one `init(opts)` call, in source order. -/
inductive InitEvent where
  | setConfig
  | setInitFlag
  | resolveReady
  | flushWaiter (i : Nat)
  | dispatchReadyEvent
  | setStateSnapshot
deriving DecidableEq

/-- The synchronous event order of `init(opts)` when `numWaiters` load
requests were queued before initialization: config assignment, the
initialized flag, `_resolveReady()`, the queued waiters invoked in queue
order, `window.dispatchEvent(new Event("CodeMaskReady"))`, and finally
`window.CodeMask._state = state`. -/
def initTrace (numWaiters : Nat) : List InitEvent :=
  [InitEvent.setConfig, InitEvent.setInitFlag, InitEvent.resolveReady] ++
    (List.range numWaiters).map InitEvent.flushWaiter ++
    [InitEvent.dispatchReadyEvent, InitEvent.setStateSnapshot]

/-- Index of the first occurrence of an event in a trace (trace length if
absent). -/
def firstPos (l : List InitEvent) (e : InitEvent) : Nat :=
  l.findIdx (fun x => decide (x = e))

/-- The first occurrence of `a` lies strictly before the first occurrence
of `b`. -/
def precedes (l : List InitEvent) (a b : InitEvent) : Prop :=
  firstPos l a < firstPos l b

instance (l : List InitEvent) (a b : InitEvent) : Decidable (precedes l a b) := by
  unfold precedes
  infer_instance

/- ## Snippet classifier (src/utils/parser.js, analyze) -/

/-- JS whitespace (the `\s` class and `String.prototype.trim`). -/
def isJsWs (c : Char) : Bool :=
  c = ' ' || c = '\t' || c = '\n' || c = '\r' || c = '\x0b' || c = '\x0c' ||
    c = ' ' || c = ' ' || (0x2000 ≤ c.val && c.val ≤ 0x200A) ||
    c = ' ' || c = ' ' || c = ' ' || c = ' ' ||
    c = '　' || c = '﻿'

/-- The identifier class `[A-Za-z0-9_$]` used by all three patterns. -/
def isIdentChar (c : Char) : Bool :=
  ('A' ≤ c && c ≤ 'Z') || ('a' ≤ c && c ≤ 'z') || ('0' ≤ c && c ≤ '9') ||
    c = '_' || c = '$'

/-- `String.prototype.trim`: strip JS whitespace from both ends. -/
def trimChars (s : List Char) : List Char :=
  ((s.dropWhile isJsWs).reverse.dropWhile isJsWs).reverse

/-- Abstract syntax of the regex fragments the classifier uses: character
classes, sequencing, alternation, greedy or lazy star, greedy or lazy
option, and numbered capture groups. -/
inductive Re where
  | eps
  | cls (p : Char → Bool)
  | seq (a b : Re)
  | alt (a b : Re)
  | star (r : Re) (isLazy : Bool)
  | opt (r : Re) (isLazy : Bool)
  | group (n : Nat) (r : Re)

/-- Node count of a regex, used to size the matcher's recursion budget. -/
def reSize : Re → Nat
  | Re.eps => 1
  | Re.cls _ => 1
  | Re.seq a b => reSize a + reSize b + 1
  | Re.alt a b => reSize a + reSize b + 1
  | Re.star r _ => reSize r + 1
  | Re.opt r _ => reSize r + 1
  | Re.group n r => n + reSize r + 1

/-- Captured groups: group number paired with captured text, latest first. -/
abbrev Caps := List (Nat × List Char)

/-- Backtracking matcher in JS preference order. Each result is the number
of consumed characters paired with the captures on that path; the list is
ordered the way a JS engine explores alternatives (left alternative first,
greedy quantifiers longest-first, lazy quantifiers shortest-first, a
quantified body must consume to iterate). The fuel bounds recursion depth
and is chosen large enough by `regexFullMatch`. -/
def matchRe : Nat → Re → List Char → Caps → List (Nat × Caps)
  | 0, _, _, _ => []
  | fuel + 1, re, s, caps =>
    match re with
    | Re.eps => [(0, caps)]
    | Re.cls p =>
      match s with
      | [] => []
      | c :: _ => if p c then [(1, caps)] else []
    | Re.seq a b =>
      (matchRe fuel a s caps).flatMap (fun r =>
        (matchRe fuel b (s.drop r.1) r.2).map (fun r2 => (r.1 + r2.1, r2.2)))
    | Re.alt a b => matchRe fuel a s caps ++ matchRe fuel b s caps
    | Re.opt r isLazy =>
      if isLazy then (0, caps) :: matchRe fuel r s caps
      else matchRe fuel r s caps ++ [(0, caps)]
    | Re.star r isLazy =>
      let firsts := (matchRe fuel r s caps).filter (fun rc => rc.1 != 0)
      let more := firsts.flatMap (fun rc =>
        (matchRe fuel (Re.star r isLazy) (s.drop rc.1) rc.2).map
          (fun r2 => (rc.1 + r2.1, r2.2)))
      if isLazy then (0, caps) :: more else more ++ [(0, caps)]
    | Re.group n r =>
      (matchRe fuel r s caps).map (fun rc => (rc.1, (n, s.take rc.1) :: rc.2))

/-- Anchored match (`^...$` with no multiline flag): the first explored
path that consumes the whole input, as `str.match(re)` would return. -/
def regexFullMatch (re : Re) (s : List Char) : Option Caps :=
  ((matchRe ((reSize re + 2) * (s.length + 2)) re s []).find?
      (fun rc => rc.1 == s.length)).map (fun rc => rc.2)

/-- Capture group text, empty when absent: JS `(m[n] || "")`. -/
def capOr (caps : Caps) (n : Nat) : List Char :=
  match caps.find? (fun p => p.1 == n) with
  | some p => p.2
  | none => []

/-- Single literal character. -/
def litc (c : Char) : Re := Re.cls (fun x => x == c)

/-- Literal string. -/
def lits (s : String) : Re :=
  s.data.foldr (fun c r => Re.seq (litc c) r) Re.eps

/-- Sequence of regex pieces. -/
def reSeq (l : List Re) : Re := l.foldr Re.seq Re.eps

/-- Greedy `X*`. -/
def star0 (r : Re) : Re := Re.star r false

/-- Lazy `X*?`. -/
def star0L (r : Re) : Re := Re.star r true

/-- Greedy `X+`. -/
def plus1 (r : Re) : Re := Re.seq r (Re.star r false)

/-- Lazy `X+?`. -/
def plus1L (r : Re) : Re := Re.seq r (Re.star r true)

/-- The class `\s`. -/
def wsCls : Re := Re.cls isJsWs

/-- The class `[\s\S]` (any character). -/
def anyCls : Re := Re.cls (fun _ => true)

/-- The class `[A-Za-z0-9_$]`. -/
def identCls : Re := Re.cls isIdentChar

/-- Pattern 1 of analyze: function declarations, with optional async. -/
def declRe : Re :=
  reSeq [Re.opt (Re.seq (lits ("async")) (plus1 wsCls)) false,
         lits ("function"), plus1 wsCls,
         Re.group 1 (plus1 identCls),
         star0 wsCls, litc '(',
         Re.group 2 (star0L anyCls), litc ')',
         star0 wsCls, litc '\x7b',
         Re.group 3 (star0L anyCls), litc '\x7d',
         star0 wsCls]

/-- Pattern 2 of analyze: const/let (async) arrow assignments. -/
def arrowRe : Re :=
  reSeq [Re.alt (lits ("const")) (lits ("let")), plus1 wsCls,
         Re.group 1 (plus1 identCls),
         star0 wsCls, litc '=', star0 wsCls,
         Re.opt (Re.seq (lits ("async")) (star0 wsCls)) false,
         Re.opt (litc '(') false,
         Re.group 2 (star0L anyCls),
         Re.opt (litc ')') false,
         star0 wsCls, litc '=', litc '>', star0 wsCls,
         litc '\x7b', Re.group 3 (star0L anyCls), litc '\x7d',
         star0 wsCls, Re.opt (litc ';') false, star0 wsCls]

/-- Pattern 3 of analyze: generic const/let assignments (constants). -/
def constantRe : Re :=
  reSeq [Re.alt (lits ("const")) (lits ("let")), plus1 wsCls,
         Re.group 1 (plus1 identCls),
         star0 wsCls, litc '=', star0 wsCls,
         Re.group 2 (plus1L anyCls),
         Re.opt (litc ';') false, star0 wsCls]

/-- Result of analyze: kind tag, optional name, params, body, and the
trimmed original snippet. -/
structure AnalyzeResult where
  kind : String
  name : Option (List Char)
  params : List Char
  body : List Char
  original : List Char
deriving DecidableEq

/-- analyze(snippet): trim, then try the decl, arrow and constant patterns
in order; the first match wins; anything else is unknown. -/
def analyze (snippet : List Char) : AnalyzeResult :=
  let trimmed := trimChars snippet
  match regexFullMatch declRe trimmed with
  | some caps =>
    { kind := "decl", name := some (trimChars (capOr caps 1)),
      params := trimChars (capOr caps 2), body := trimChars (capOr caps 3),
      original := trimmed }
  | none =>
  match regexFullMatch arrowRe trimmed with
  | some caps =>
    { kind := "arrow", name := some (trimChars (capOr caps 1)),
      params := trimChars (capOr caps 2), body := trimChars (capOr caps 3),
      original := trimmed }
  | none =>
  match regexFullMatch constantRe trimmed with
  | some caps =>
    { kind := "constant", name := some (trimChars (capOr caps 1)),
      params := [], body := [], original := trimmed }
  | none =>
    { kind := "unknown", name := none, params := [], body := [], original := trimmed }

/- ## Marker scanner (src/utils/parser.js, transformFile) -/

/-- The start marker `/* CODEMASK_START */`. -/
def CM_START : List Char := "/* CODEMASK_START */".data

/-- The end marker `/* CODEMASK_END */`. -/
def CM_END : List Char := "/* CODEMASK_END */".data

/-- Offset of the first occurrence of `needle` in `hay`, if any. -/
def findSub (needle : List Char) : List Char → Option Nat
  | [] => if needle.isEmpty then some 0 else none
  | c :: rest =>
    if needle.isPrefixOf (c :: rest) then some 0
    else (findSub needle rest).map (fun i => i + 1)

/-- JS `hay.indexOf(needle, start)`: absolute index of the first
occurrence at or after `start`, or none (JS -1). -/
def indexOfFrom (needle hay : List Char) (start : Nat) : Option Nat :=
  (findSub needle (hay.drop start)).map (fun i => start + i)

/-- JS `content.slice(a, b)` for 0 ≤ a ≤ b. -/
def sliceList (l : List Char) (a b : Nat) : List Char :=
  (l.drop a).take (b - a)

/-- One chunk record pushed by transformFile into its `chunks` array. -/
structure FragChunk where
  chunkId : List Char
  type : String
  name : Option (List Char)
  params : List Char
  body : List Char
  original : List Char
deriving DecidableEq

/-- Replacement stub for a function declaration chunk. -/
def stubDecl (chunkId nameText params : List Char) : List Char :=
  ("/* CODEMASKED:").data ++ chunkId ++ (" */\nasync function ").data ++ nameText ++
    ("(").data ++ params ++
    (") \x7b\n  const fn = await window.CodeMask.load(\"").data ++ chunkId ++
    ("\");\n  return fn.apply(this, [").data ++ params ++
    ("]);\n\x7d\n/* END_CODEMASKED */\n").data

/-- Replacement stub for an arrow-function chunk. -/
def stubArrow (chunkId nameText params : List Char) : List Char :=
  ("/* CODEMASKED:").data ++ chunkId ++ (" */\nconst ").data ++ nameText ++
    (" = async (").data ++ params ++
    (") => \x7b\n  const fn = await window.CodeMask.load(\"").data ++ chunkId ++
    ("\");\n  return fn(").data ++ params ++
    (");\n\x7d;\n/* END_CODEMASKED */\n").data

/-- Replacement stub for a constant chunk: fire-and-forget IIFE. -/
def stubConstant (chunkId nameText : List Char) : List Char :=
  ("/* CODEMASKED:").data ++ chunkId ++
    (" */\n(function()\x7b\n  // Load & execute the raw constant snippet so it defines ").data ++
    nameText ++
    ("\n  var p = window.CodeMask && window.CodeMask.load\n    ? window.CodeMask.load(\"").data ++
    chunkId ++
    ("\")\n    : Promise.reject(new Error(\"CodeMask SDK not initialized before constants load\"));\n\n  p.then(function(fn)\x7b\n    // SDK returns a function for \x27raw\x27 kind; call it to execute the snippet\n    try \x7b if (typeof fn === \"function\") fn(); \x7d catch(e)\x7b console.error(\"CodeMask constant exec error (").data ++
    chunkId ++
    (")\", e); \x7d\n  \x7d).catch(function(err)\x7b\n    console.error(\"CodeMask constant load failed (").data ++
    chunkId ++
    (")\", err);\n  \x7d);\n\x7d)();\n/* END_CODEMASKED */\n").data

/-- Replacement stub for an unknown chunk: fire-and-forget IIFE. -/
def stubUnknown (chunkId : List Char) : List Char :=
  ("/* CODEMASKED:").data ++ chunkId ++
    (" */\n(function()\x7b\n  var p = window.CodeMask && window.CodeMask.load\n    ? window.CodeMask.load(\"").data ++
    chunkId ++
    ("\")\n    : Promise.reject(new Error(\"CodeMask SDK not initialized before unknown block load\"));\n\n  p.then(function(fn)\x7b\n    try \x7b if (typeof fn === \"function\") fn(); \x7d catch(e)\x7b console.error(\"CodeMask unknown exec error (").data ++
    chunkId ++
    (")\", e); \x7d\n  \x7d).catch(function(err)\x7b\n    console.error(\"CodeMask unknown load failed (").data ++
    chunkId ++
    (")\", err);\n  \x7d);\n\x7d)();\n/* END_CODEMASKED */\n").data

/-- The stub text and chunk record pushed for one classified fragment,
following transformFile's branch on `info.kind`. -/
def makeStub (chunkId : List Char) (info : AnalyzeResult) : List Char × FragChunk :=
  if info.kind = "decl" then
    (stubDecl chunkId (info.name.getD []) info.params,
     { chunkId := chunkId, type := "decl", name := info.name, params := info.params,
       body := info.body, original := info.original })
  else if info.kind = "arrow" then
    (stubArrow chunkId (info.name.getD []) info.params,
     { chunkId := chunkId, type := "arrow", name := info.name, params := info.params,
       body := info.body, original := info.original })
  else if info.kind = "constant" then
    (stubConstant chunkId (info.name.getD []),
     { chunkId := chunkId, type := "constant", name := info.name, params := [], body := [],
       original := info.original })
  else
    (stubUnknown chunkId,
     { chunkId := chunkId, type := "raw", name := none, params := [], body := [],
       original := info.original })

/-- The scanner loop of transformFile from position `idx`: find the next
start marker (the rest is verbatim if there is none), emit the verbatim
span before it, find the matching end marker (the remainder including the
dangling start marker is verbatim if there is none), otherwise classify
the trimmed span between the markers, emit the stub, record the chunk, and
resume after the end marker. `ids n` stands for the nanoid(8) drawn for
the n-th fragment; `cnt` counts fragments already emitted. -/
def transformLoop (ids : Nat → List Char) (content : List Char) (idx cnt : Nat) :
    List Char × List FragChunk :=
  if hlt : idx < content.length then
    match hs : indexOfFrom CM_START content idx with
    | none => (content.drop idx, [])
    | some start =>
      match he : indexOfFrom CM_END content start with
      | none => (sliceList content idx start ++ content.drop start, [])
      | some endPos =>
        let raw := trimChars (sliceList content (start + CM_START.length) endPos)
        let info := analyze raw
        let chunkId := ("chunk_").data ++ ids cnt
        let sc := makeStub chunkId info
        let rest := transformLoop ids content (endPos + CM_END.length) (cnt + 1)
        (sliceList content idx start ++ sc.1 ++ rest.1, sc.2 :: rest.2)
  else ([], [])
termination_by content.length - idx
decreasing_by
  simp only [indexOfFrom, Option.map_eq_some'] at hs he
  obtain ⟨k1, -, h1⟩ := hs
  obtain ⟨k2, -, h2⟩ := he
  have hC : 0 < CM_END.length := by decide
  omega

/-- transformFile(relativePath, content): return the content unchanged
with no chunks when it contains no start marker, otherwise run the
scanner loop from the beginning. -/
def transformFile (ids : Nat → List Char) (content : List Char) :
    List Char × List FragChunk :=
  match indexOfFrom CM_START content 0 with
  | none => (content, [])
  | some _ => transformLoop ids content 0 0

/- ## Concrete data used by the witnesses -/

/-- A stored function-declaration chunk with name foo, params x, body
`return x*2;`. -/
def demoChunk : Chunk :=
  { type := "decl", name := some ("foo"), params := "x", body := "return x*2;",
    original := "function foo(x) \x7b return x*2; \x7d" }

/-- A stored constant chunk. -/
def demoChunk2 : Chunk :=
  { type := "constant", name := some ("TABLE"), params := "", body := "",
    original := "const TABLE = [1,2,3];" }

/-- A project holding demoChunk under chunk id c1, with key k1. -/
def demoProject : Project := { key := "k1", chunks := [("c1", demoChunk)] }

/-- A store holding demoProject under project id p1. -/
def demoStore : Store := [("p1", demoProject)]

/-- A fresh operation sequence against demoStore: a new project, then a
new chunk under p1. -/
def demoOps : List RegOp :=
  [RegOp.create ("p2") ("k2"), RegOp.put ("p1") ("c2") demoChunk2]

/-- A payload of kind "function". -/
def demoPayload : Payload :=
  { kind := "function", name := some ("foo"), code := "(x) => x*2" }

/-- A fetch oracle serving demoPayload for chunk id c9. -/
def demoServer : String → Option Payload :=
  fun chunkId => if chunkId = "c9" then some demoPayload else none

/- ## Helper lemmas -/

theorem mapGet_mapSet_self {α : Type} (m : List (String × α)) (k : String) (v : α) :
    mapGet (mapSet m k v) k = some v := by
  induction m with
  | nil => simp [mapSet, mapGet]
  | cons hd tl ih =>
    obtain ⟨k0, v0⟩ := hd
    by_cases h : k0 = k
    · simp [mapSet, mapGet, h]
    · simp [mapSet, mapGet, h, ih]

theorem mapGet_mapSet_ne {α : Type} (m : List (String × α)) (k k2 : String) (v : α)
    (h : k2 ≠ k) : mapGet (mapSet m k v) k2 = mapGet m k2 := by
  induction m with
  | nil => simp [mapSet, mapGet, Ne.symm h]
  | cons hd tl ih =>
    obtain ⟨k0, v0⟩ := hd
    by_cases h0 : k0 = k
    · subst h0
      simp [mapSet, mapGet, Ne.symm h]
    · simp only [mapSet, if_neg h0, mapGet]
      by_cases h2 : k0 = k2
      · simp [h2]
      · simp [h2, ih]

/- ## C1 -/

/-- C1: a fetch under an existing project with a key unequal to the
project's key answers Forbidden (403 Invalid key) for every chunk id,
existing or not, and never ChunkNotFound: the key check runs after the
project lookup and before any chunk lookup. -/
theorem fetch_wrong_key_forbidden (s : Store) (projectId chunkId qkey : String)
    (proj : Project) (hp : getProject s projectId = some proj) (hk : qkey ≠ proj.key) :
    fetchChunkHandler s projectId chunkId qkey = FetchResponse.invalidKey ∧
      fetchChunkHandler s projectId chunkId qkey ≠ FetchResponse.chunkNotFound := by
  unfold fetchChunkHandler
  rw [hp]
  simp [hk]

/-- C1 witness: a concrete store, a wrong key, and a chunk id that does
not exist in the project. -/
theorem fetch_wrong_key_forbidden_witness :
    fetchChunkHandler demoStore ("p1") ("nope") ("badkey") = FetchResponse.invalidKey ∧
      fetchChunkHandler demoStore ("p1") ("nope") ("badkey") ≠ FetchResponse.chunkNotFound :=
  fetch_wrong_key_forbidden demoStore ("p1") ("nope") ("badkey") demoProject
    (by decide) (by decide)

/- ## C2 -/

/-- C2: with the correct key, a stored decl/arrow chunk is served as
`okFunction` with the stored name and code `(params) => { body }`, and a
stored constant/raw chunk is served as `okRaw` carrying the stored
original text verbatim with no name. -/
theorem fetch_success_shape (s : Store) (projectId chunkId qkey : String)
    (proj : Project) (chunk : Chunk)
    (hp : getProject s projectId = some proj) (hk : qkey = proj.key)
    (hc : getChunk s projectId chunkId = some chunk) :
    ((chunk.type = "decl" ∨ chunk.type = "arrow") →
      fetchChunkHandler s projectId chunkId qkey =
        FetchResponse.okFunction chunk.name
          ("(" ++ chunk.params ++ ") => \x7b " ++ chunk.body ++ " \x7d")) ∧
    ((chunk.type = "constant" ∨ chunk.type = "raw") →
      fetchChunkHandler s projectId chunkId qkey = FetchResponse.okRaw chunk.original) := by
  have hne : ¬ (qkey ≠ proj.key) := fun hh => hh hk
  constructor
  · intro hkind
    unfold fetchChunkHandler
    rw [hp]
    simp only [if_neg hne]
    rw [hc]
    simp [hkind]
  · intro hkind
    have hno : ¬ (chunk.type = "decl" ∨ chunk.type = "arrow") := by
      rcases hkind with h | h <;> rw [h] <;> decide
    unfold fetchChunkHandler
    rw [hp]
    simp only [if_neg hne]
    rw [hc]
    simp [hno]

/-- C2 witness: the stored FunctionDeclaration chunk foo with params x
and body `return x*2;` served with the correct key yields code
`(x) => { return x*2; }`. -/
theorem fetch_success_shape_witness :
    fetchChunkHandler demoStore ("p1") ("c1") ("k1") =
      FetchResponse.okFunction (some ("foo")) ("(x) => \x7b return x*2; \x7d") := by
  have h := (fetch_success_shape demoStore ("p1") ("c1") ("k1") demoProject demoChunk
    (by decide) (by decide) (by decide)).1 (Or.inl (by decide))
  exact h.trans (by decide)

/- ## C10 -/

/-- C10: createProject is total and unconditional: in every store,
including one where the project id is already mapped, it maps the id to a
fresh project carrying the supplied key and an empty chunk table, so any
chunks previously stored under that id become unreachable. -/
theorem createProject_total_overwrite (s : Store) (projectId key : String) :
    getProject (createProject s projectId key) projectId =
      some { key := key, chunks := [] } ∧
    (∀ chunkId, getChunk (createProject s projectId key) projectId chunkId = none) := by
  constructor
  · exact mapGet_mapSet_self s projectId _
  · intro chunkId
    unfold getChunk createProject
    rw [mapGet_mapSet_self]
    simp [mapGet]

/- ## C3 -/

/-- C3 counterexample: after createProject maps p to its original record,
the reachable operation createProject p k2 leaves p mapped to a different
record, so an existing project record is updated after creation. -/
theorem registry_not_monotonic_cex :
    getProject (applyOp [] (RegOp.create ("p") ("k1"))) ("p") =
      some { key := "k1", chunks := [] } ∧
    getProject (applyOp (applyOp [] (RegOp.create ("p") ("k1"))) (RegOp.create ("p") ("k2")))
        ("p") ≠ some { key := "k1", chunks := [] } := by
  decide

/-- One fresh registry operation preserves every existing project id, its
key, and every existing chunk record. -/
theorem applyOp_preserves_fresh (s : Store) (op : RegOp) (hop : opFresh s op = true)
    (pid : String) (proj : Project) (hp : getProject s pid = some proj) :
    ∃ proj2, getProject (applyOp s op) pid = some proj2 ∧ proj2.key = proj.key ∧
      ∀ cid c, mapGet proj.chunks cid = some c → mapGet proj2.chunks cid = some c := by
  cases op with
  | create pid2 k2 =>
    have hnone : getProject s pid2 = none := by
      simpa [opFresh, Option.isNone_iff_eq_none] using hop
    have hne : pid ≠ pid2 := by
      intro hEq
      rw [hEq, hnone] at hp
      exact Option.noConfusion hp
    refine ⟨proj, ?_, rfl, fun cid c hc => hc⟩
    unfold applyOp createProject getProject
    rw [mapGet_mapSet_ne _ _ _ _ hne]
    exact hp
  | put pid2 cid2 c2 =>
    have hnone : getChunk s pid2 cid2 = none := by
      simpa [opFresh, Option.isNone_iff_eq_none] using hop
    cases hp2 : mapGet s pid2 with
    | none =>
      have happ : applyOp s (RegOp.put pid2 cid2 c2) = s := by
        simp [applyOp, putChunk, hp2]
      rw [happ]
      exact ⟨proj, hp, rfl, fun cid c hc => hc⟩
    | some projB =>
      have happ : applyOp s (RegOp.put pid2 cid2 c2) =
          mapSet s pid2 { projB with chunks := mapSet projB.chunks cid2 c2 } := by
        simp [applyOp, putChunk, hp2]
      rw [happ]
      by_cases hpe : pid = pid2
      · subst hpe
        have hpp : projB = proj := by
          have hgp : getProject s pid = some projB := by
            simpa [getProject] using hp2
          rw [hgp] at hp
          exact Option.some.inj hp
        subst hpp
        have hcnone : mapGet projB.chunks cid2 = none := by
          have := hnone
          unfold getChunk at this
          rw [hp2] at this
          exact this
        refine ⟨{ projB with chunks := mapSet projB.chunks cid2 c2 }, ?_, rfl, ?_⟩
        · exact mapGet_mapSet_self s pid _
        · intro cid c hc
          have hne : cid ≠ cid2 := by
            intro hEq
            rw [hEq, hcnone] at hc
            exact Option.noConfusion hc
          simpa [mapGet_mapSet_ne _ _ _ _ hne] using hc
      · refine ⟨proj, ?_, rfl, fun cid c hc => hc⟩
        show mapGet (mapSet s pid2 _) pid = some proj
        rw [mapGet_mapSet_ne _ _ _ _ hpe]
        exact hp

/-- C3 amended: under every sequence of registry operations that never
reuses an already-mapped project id in createProject nor an already-stored
chunk id in putChunk (the only collisions the code resolves by silent
overwrite), the registry grows monotonically: every mapped project id
stays mapped, its key is never changed, and every stored chunk record
survives unchanged. -/
theorem registry_monotonic_fresh (ops : List RegOp) (s : Store)
    (h : allFresh s ops = true) (pid : String) (proj : Project)
    (hp : getProject s pid = some proj) :
    ∃ proj2, getProject (applyOps s ops) pid = some proj2 ∧ proj2.key = proj.key ∧
      ∀ cid c, mapGet proj.chunks cid = some c → mapGet proj2.chunks cid = some c := by
  induction ops generalizing s proj with
  | nil =>
    exact ⟨proj, by simpa [applyOps] using hp, rfl, fun cid c hc => hc⟩
  | cons op ops ih =>
    rw [allFresh, Bool.and_eq_true] at h
    obtain ⟨proj1, h1, hkey1, hch1⟩ := applyOp_preserves_fresh s op h.1 pid proj hp
    obtain ⟨proj2, h2, hkey2, hch2⟩ := ih (applyOp s op) h.2 proj1 h1
    refine ⟨proj2, ?_, hkey2.trans hkey1, fun cid c hc => hch2 cid c (hch1 cid c hc)⟩
    simpa [applyOps] using h2

/-- C3 amended witness: a fresh create and a fresh put against a store
holding project p1; the p1 record survives with its key and chunk. -/
theorem registry_monotonic_fresh_witness :
    ∃ proj2, getProject (applyOps demoStore demoOps) ("p1") = some proj2 ∧
      proj2.key = demoProject.key ∧
      ∀ cid c, mapGet demoProject.chunks cid = some c →
        mapGet proj2.chunks cid = some c :=
  registry_monotonic_fresh demoOps demoStore (by decide) ("p1") demoProject (by decide)

/- ## C4 -/

/-- C4 counterexample: with one request queued before initialization, it
is false that both the process-wide readiness broadcast and the state
snapshot update occur before the queued request is flushed — in the
source, `queued.forEach(fn => fn())` runs before `dispatchEvent` and
before `window.CodeMask._state = state`; only `_resolveReady()` precedes
the flush. -/
theorem init_signal_order_cex :
    ¬ (precedes (initTrace 1) InitEvent.dispatchReadyEvent (InitEvent.flushWaiter 0) ∧
       precedes (initTrace 1) InitEvent.setStateSnapshot (InitEvent.flushWaiter 0)) := by
  decide

/-- C4 amended: in every init call with queued requests, the readiness
handle resolution (position 2) happens before every queued request is
flushed (request i at position i + 3, so the flush is in first-in
first-out issuance order), and the readiness event broadcast (position
n + 3) and the public state snapshot update (position n + 4) happen after
all flushes; all of these lie in the one synchronous trace of init, which
ends right after the snapshot update. -/
theorem init_signal_order_amended (n i : Nat) (h : i < n) :
    (initTrace n).get? 2 = some InitEvent.resolveReady ∧
    (initTrace n).get? (i + 3) = some (InitEvent.flushWaiter i) ∧
    (initTrace n).get? (n + 3) = some InitEvent.dispatchReadyEvent ∧
    (initTrace n).get? (n + 4) = some InitEvent.setStateSnapshot ∧
    (initTrace n).length = n + 5 ∧
    2 < i + 3 ∧ i + 3 < n + 3 ∧ n + 3 < n + 4 := by
  refine ⟨rfl, ?_, ?_, ?_, ?_, by omega, by omega, by omega⟩
  · show ((List.range n).map InitEvent.flushWaiter ++
        [InitEvent.dispatchReadyEvent, InitEvent.setStateSnapshot]).get? i =
      some (InitEvent.flushWaiter i)
    rw [List.get?_append (by simpa using h), List.get?_map, List.get?_range h]
    rfl
  · show ((List.range n).map InitEvent.flushWaiter ++
        [InitEvent.dispatchReadyEvent, InitEvent.setStateSnapshot]).get? n =
      some InitEvent.dispatchReadyEvent
    rw [List.get?_append_right (by simp)]
    simp
  · show ((List.range n).map InitEvent.flushWaiter ++
        [InitEvent.dispatchReadyEvent, InitEvent.setStateSnapshot]).get? (n + 1) =
      some InitEvent.setStateSnapshot
    rw [List.get?_append_right (by simp)]
    simp
  · simp [initTrace]

/-- C4 amended witness: the order at n = 2 queued requests, request 0. -/
theorem init_signal_order_amended_witness :
    (initTrace 2).get? 2 = some InitEvent.resolveReady ∧
    (initTrace 2).get? (0 + 3) = some (InitEvent.flushWaiter 0) ∧
    (initTrace 2).get? (2 + 3) = some InitEvent.dispatchReadyEvent ∧
    (initTrace 2).get? (2 + 4) = some InitEvent.setStateSnapshot ∧
    (initTrace 2).length = 2 + 5 ∧
    2 < 0 + 3 ∧ 0 + 3 < 2 + 3 ∧ 2 + 3 < 2 + 4 :=
  init_signal_order_amended 2 0 (by decide)

/- ## C5 -/

/-- C5: for a cache miss answered with a "function" payload, the first
load performs exactly one fetch, compiles and caches the callable, and a
second sequential load returns the same callable from the cache with zero
fetches (one fetch total); for any other payload kind the compiled unit is
not cached, so a second sequential load performs a fetch again (two
fetches total). -/
theorem cache_asymmetry (server : String → Option Payload)
    (cache : List (String × Compiled)) (chunkId : String) (p : Payload)
    (hmiss : mapGet cache chunkId = none) (hs : server chunkId = some p) :
    (p.kind = "function" →
      (_loadImpl server cache chunkId).2.2 = 1 ∧
      (_loadImpl server cache chunkId).1 = Except.ok (Compiled.fnFromCode p.code) ∧
      (_loadImpl server ((_loadImpl server cache chunkId).2.1) chunkId).2.2 = 0 ∧
      (_loadImpl server ((_loadImpl server cache chunkId).2.1) chunkId).1 =
        Except.ok (Compiled.fnFromCode p.code)) ∧
    (p.kind ≠ "function" →
      (_loadImpl server cache chunkId).2.2 = 1 ∧
      (_loadImpl server cache chunkId).2.1 = cache ∧
      (_loadImpl server ((_loadImpl server cache chunkId).2.1) chunkId).2.2 = 1) := by
  constructor
  · intro hq
    have h1 : _loadImpl server cache chunkId =
        (Except.ok (Compiled.fnFromCode p.code),
          mapSet cache chunkId (Compiled.fnFromCode p.code), 1) := by
      unfold _loadImpl
      rw [hmiss, hs]
      simp [hq]
    have h2 : _loadImpl server (mapSet cache chunkId (Compiled.fnFromCode p.code)) chunkId =
        (Except.ok (Compiled.fnFromCode p.code),
          mapSet cache chunkId (Compiled.fnFromCode p.code), 0) := by
      unfold _loadImpl
      rw [mapGet_mapSet_self]
    rw [h1]
    exact ⟨rfl, rfl, by rw [h2], by rw [h2]⟩
  · intro hq
    have h1 : _loadImpl server cache chunkId =
        (Except.ok (Compiled.rawFn p.code), cache, 1) := by
      unfold _loadImpl
      rw [hmiss, hs]
      simp [hq]
    rw [h1]
    exact ⟨rfl, rfl, by rw [h1]⟩

/-- C5 witness: a concrete server answering chunk id c9 with a "function"
payload, starting from an empty cache. -/
theorem cache_asymmetry_witness :
    (_loadImpl demoServer [] ("c9")).2.2 = 1 ∧
    (_loadImpl demoServer [] ("c9")).1 = Except.ok (Compiled.fnFromCode demoPayload.code) ∧
    (_loadImpl demoServer ((_loadImpl demoServer [] ("c9")).2.1) ("c9")).2.2 = 0 ∧
    (_loadImpl demoServer ((_loadImpl demoServer [] ("c9")).2.1) ("c9")).1 =
      Except.ok (Compiled.fnFromCode demoPayload.code) :=
  (cache_asymmetry demoServer [] ("c9") demoPayload (by decide) (by decide)).1 (by decide)

/- ## C6 -/

/-- C6: whenever the scanner, at any position, finds a start marker with
no end marker anywhere at or after it, its remaining output is exactly the
verbatim span before the start marker followed by the entire remaining
text including the dangling start marker — which together are the
remaining input unchanged — no fragment is produced, and scanning ends
normally. -/
theorem scanner_unmatched_marker (ids : Nat → List Char) (content : List Char)
    (idx cnt start : Nat) (hidx : idx < content.length)
    (hstart : indexOfFrom CM_START content idx = some start)
    (hend : indexOfFrom CM_END content start = none) :
    transformLoop ids content idx cnt =
      (sliceList content idx start ++ content.drop start, []) ∧
    sliceList content idx start ++ content.drop start = content.drop idx := by
  have hle : idx ≤ start := by
    simp only [indexOfFrom, Option.map_eq_some'] at hstart
    obtain ⟨k, -, hk⟩ := hstart
    omega
  constructor
  · unfold transformLoop
    rw [dif_pos hidx]
    split
    · rename_i heq
      rw [hstart] at heq
      exact Option.noConfusion heq
    · rename_i start2 heq
      rw [hstart] at heq
      obtain rfl : start = start2 := Option.some.inj heq
      split
      · rfl
      · rename_i endPos heq2
        rw [hend] at heq2
        exact Option.noConfusion heq2
  · have hdd : content.drop start = List.drop (start - idx) (List.drop idx content) := by
      rw [List.drop_drop]
      congr 1
      omega
    rw [sliceList, hdd, List.take_append_drop]

/-- C6 witness: a file with a dangling start marker and no end marker is
passed through unchanged with zero fragments. -/
theorem scanner_unmatched_marker_witness :
    transformLoop (fun _ => ([] : List Char)) (("abc/* CODEMASK_START */xyz").data) 0 0 =
      (("abc/* CODEMASK_START */xyz").data, []) := by
  have h := scanner_unmatched_marker (fun _ => ([] : List Char))
    (("abc/* CODEMASK_START */xyz").data) 0 0 3 (by decide) (by decide) (by decide)
  rw [h.1, h.2]
  rfl

/- ## C7 -/

/-- C7: an input containing no start marker is returned byte for byte
unchanged, with zero fragments produced. -/
theorem scanner_no_marker_identity (ids : Nat → List Char) (content : List Char)
    (h : indexOfFrom CM_START content 0 = none) :
    transformFile ids content = (content, []) := by
  unfold transformFile
  rw [h]

/-- C7 witness: a marker-free input. -/
theorem scanner_no_marker_identity_witness :
    transformFile (fun _ => ([] : List Char)) (("hello world").data) =
      (("hello world").data, []) :=
  scanner_no_marker_identity (fun _ => ([] : List Char)) (("hello world").data) (by decide)

/- ## C8 -/

/-- C8: the fragment `function add(a,b){ return a+b; }` classifies as a
function declaration with name add, params `a,b`, body `return a+b;` and
originalText the trimmed fragment; and in general the declaration pattern
is tried first, so whenever it matches the trimmed fragment the result
kind is decl no matter what a later pattern would do. -/
theorem classify_function_decl_first :
    analyze (("function add(a,b)\x7b return a+b; \x7d").data) =
      { kind := "decl", name := some (("add").data), params := ("a,b").data,
        body := ("return a+b;").data,
        original := ("function add(a,b)\x7b return a+b; \x7d").data } ∧
    (∀ snippet : List Char, (regexFullMatch declRe (trimChars snippet)).isSome = true →
      (analyze snippet).kind = "decl") := by
  constructor
  · decide
  · intro snippet hm
    obtain ⟨caps, hc⟩ := Option.isSome_iff_exists.mp hm
    simp [analyze, hc]

/-- C8 witness: another fragment matched by the declaration pattern. -/
theorem classify_function_decl_first_witness :
    (analyze (("function g(a) \x7b return a; \x7d").data)).kind = "decl" :=
  classify_function_decl_first.2 (("function g(a) \x7b return a; \x7d").data) (by decide)

/- ## C9 -/

/-- C9: the fragment `const TABLE = [1,2,3];` classifies as a constant
named TABLE, with empty params and body, and originalText exactly the
trimmed fragment verbatim (the captured value text is not parsed further —
only the whole fragment is retained). -/
theorem classify_constant_preserved :
    analyze (("const TABLE = [1,2,3];").data) =
      { kind := "constant", name := some (("TABLE").data), params := [], body := [],
        original := ("const TABLE = [1,2,3];").data } := by
  decide
